import Mathlib

/-!
Shallow embedding of `datadog_checks/sqlserver/connection.py` (the
`Connection` class managing pooled SQL Server connections) and proofs of
the specification claims about it.

Conventions of the embedding:
* A Python configuration dict (`self.instance`, `init_config`) is a total
  function `String → Option String`; `none` models an absent key.
* Python truthiness of an optional string (`if not dsn:`) is `truthy`:
  `none` and `some ""` are falsy.
* `'{}'.format(x)` on an optional string renders `None` as `"None"`
  (`pyStr`).
* `str.replace` and `str.split(':')` are modelled by `pyReplace` /
  `pySplit`, implemented on `List Char` with Python's semantics
  (left-to-right non-overlapping replacement; for an empty pattern Python
  interleaves the replacement around every character).
* Raising `SQLConnectionError` is modelled by `Except.error msg` where
  `msg` is the exception's message; every error raised by the embedded
  functions is an `SQLConnectionError` (the source wraps or creates all
  of them).
* The physical driver connection is an opaque `Handle` carrying an id and
  a flag `closeOk` telling whether its `close()` call succeeds (close
  failure is an exception the source catches).
* The driver `connect` call is an oracle `String → Except String Handle`
  (argument: the connection string; error: the text of `repr(e)`).
* Side effects that the claims talk about (service checks, close
  attempts, log lines, issuing the catalog query) are returned as a list
  of `Event`s in program order.
-/

set_option maxRecDepth 16384

/-- Equality of `Except` values is decidable when both components are. -/
instance {ε α : Type} [DecidableEq ε] [DecidableEq α] :
    DecidableEq (Except ε α) := fun x y =>
  match x, y with
  | .ok a, .ok b =>
    match decEq a b with
    | isTrue h => isTrue (h ▸ rfl)
    | isFalse h => isFalse (fun hx => h (Except.ok.inj hx))
  | .error a, .error b =>
    match decEq a b with
    | isTrue h => isTrue (h ▸ rfl)
    | isFalse h => isFalse (fun hx => h (Except.error.inj hx))
  | .ok _, .error _ => isFalse (fun hx => Except.noConfusion hx)
  | .error _, .ok _ => isFalse (fun hx => Except.noConfusion hx)

/-- Python truthiness of an optional string: `None` and `''` are falsy. -/
def truthy : Option String → Bool
  | none => false
  | some s => !s.isEmpty

/-- `'{}'.format(x)` for an optional string: `None` prints as `"None"`. -/
def pyStr : Option String → String
  | none => "None"
  | some s => s

/-- A configuration dict: total map from keys to optional string values. -/
abbrev Inst : Type := String → Option String

/-- Python `str.replace` on character lists: leftmost, non-overlapping.
For an empty pattern Python inserts the replacement around every
character (`"ab".replace("", "-") == "-a-b-"`). The extra `Nat` is fuel
so that the recursion is structural (the list length is always enough
fuel, see `replFuel_fuel`); the fuel-exhausted branch is dead code. -/
def replFuel (p r : List Char) : Nat → List Char → List Char
  | _, [] => if p.isEmpty then r else []
  | 0, s => s
  | n + 1, c :: cs =>
    if p.isEmpty then r ++ c :: replFuel p r n cs
    else if p.isPrefixOf (c :: cs) then
      r ++ replFuel p r n (List.drop (p.length - 1) cs)
    else c :: replFuel p r n cs

/-- Python `str.replace` on character lists, with the fuel fixed. -/
def replL (p r s : List Char) : List Char :=
  replFuel p r s.length s

/-- Python `message.replace(old, new)`. -/
def pyReplace (s old new : String) : String :=
  ⟨replL old.data new.data s.data⟩

/-- The fixed password mask `"*" * 6` used by `open_db_connections`. -/
def mask : String := "******"

/-- Python `s.split(sep)` for a one-character separator, on char lists. -/
def splitOnChar (sep : Char) : List Char → List (List Char)
  | [] => [[]]
  | c :: cs =>
    if c = sep then [] :: splitOnChar sep cs
    else
      match splitOnChar sep cs with
      | [] => [[c]]
      | h :: t => (c :: h) :: t

/-- Python `s.split(sep)` for a one-character separator, on strings. -/
def pySplit (sep : Char) (s : String) : List String :=
  (splitOnChar sep s.data).map String.mk

/-- Any fuel at least the list's length computes the same replacement. -/
theorem replFuel_fuel (p r : List Char) :
    ∀ n s, s.length ≤ n → replFuel p r n s = replL p r s := by
  intro n
  induction n using Nat.strong_induction_on with
  | _ n ih =>
    intro s hs
    cases n with
    | zero =>
      have hnil : s = [] := List.length_eq_zero.mp (Nat.le_zero.mp hs)
      subst hnil
      rfl
    | succ n' =>
      cases s with
      | nil => rfl
      | cons c cs =>
        have hcs : cs.length ≤ n' := by
          simp only [List.length_cons] at hs
          omega
        have hdrop : (List.drop (p.length - 1) cs).length ≤ n' := by
          simp only [List.length_drop]
          omega
        have hdropc : (List.drop (p.length - 1) cs).length ≤ cs.length := by
          simp only [List.length_drop]
          omega
        show replFuel p r (n' + 1) (c :: cs) = replFuel p r (c :: cs).length (c :: cs)
        simp only [List.length_cons, replFuel]
        rw [ih n' (by omega) cs hcs, ih n' (by omega) _ hdrop,
          ih cs.length (by omega) cs (Nat.le_refl _),
          ih cs.length (by omega) _ hdropc]

/-- Equation: replacement on the empty list. -/
theorem replL_nil (p r : List Char) :
    replL p r [] = if p.isEmpty then r else [] := rfl

/-- Equation: replacement on a cons cell. -/
theorem replL_cons (p r : List Char) (c : Char) (cs : List Char) :
    replL p r (c :: cs) =
      if p.isEmpty then r ++ c :: replL p r cs
      else if p.isPrefixOf (c :: cs) then
        r ++ replL p r (List.drop (p.length - 1) cs)
      else c :: replL p r cs := by
  show replFuel p r (cs.length + 1) (c :: cs) = _
  simp only [replFuel]
  rw [replFuel_fuel p r cs.length cs (Nat.le_refl _),
    replFuel_fuel p r cs.length _ (by simp only [List.length_drop]; omega)]

/-- The resolved access parameters of `_get_access_info`: each field is an
optional string exactly as in the Python code (`None` = `none`). -/
structure AccessInfo where
  dsn : Option String
  host : Option String
  username : Option String
  password : Option String
  database : Option String
  driver : Option String
deriving Repr, DecidableEq

/-- The database expression of `_get_access_info`:
`self.instance.get(db_key) if db_name is None else db_name` (a `None`
`db_key` looks up nothing). -/
def dbSource (inst : Inst) (db_key db_name : Option String) :
    Option String :=
  match db_name with
  | some n => some n
  | none => db_key.bind inst

/-- Embeds `Connection._get_access_info(db_key, db_name)`: reads the raw
configuration fields; the database comes from `db_name` when given, else
from the instance entry at `db_key` (`None` when `db_key` is `None`);
when no DSN is supplied, falsy host/database/driver fall back to the
fixed defaults `127.0.0.1,1433` / `master` / `SQL Server`. -/
def get_access_info (inst : Inst) (db_key db_name : Option String) :
    AccessInfo :=
  if truthy (inst "dsn") then
    ⟨inst "dsn", inst "host", inst "username", inst "password",
      dbSource inst db_key db_name, inst "driver"⟩
  else
    ⟨inst "dsn",
      if truthy (inst "host") then inst "host" else some "127.0.0.1,1433",
      inst "username", inst "password",
      if truthy (dbSource inst db_key db_name) then
        dbSource inst db_key db_name
      else some "master",
      if truthy (inst "driver") then inst "driver" else some "SQL Server"⟩

/-- Embeds `Connection._conn_key`: the `:`-joined serialization of the six
resolved access fields, with `None` rendered as `"None"` by `format`. -/
def conn_key (inst : Inst) (db_key db_name : Option String) : String :=
  let a := get_access_info inst db_key db_name
  pyStr a.dsn ++ ":" ++ pyStr a.host ++ ":" ++ pyStr a.username ++ ":" ++
    pyStr a.password ++ ":" ++ pyStr a.database ++ ":" ++ pyStr a.driver

/-- Python `s.lower()` (ASCII case mapping), kernel-computable. -/
def pyLower (s : String) : String := ⟨s.data.map Char.toLower⟩

/-- Python `s.upper()` (ASCII case mapping), kernel-computable. -/
def pyUpper (s : String) : String := ⟨s.data.map Char.toUpper⟩

/-- The class attribute `valid_adoproviders`. -/
def valid_adoproviders : List String := ["SQLOLEDB", "MSOLEDBSQL", "SQLNCLI11"]

/-- The `valid_connectors` list built in `__init__` from which driver
modules imported successfully. -/
def valid_connectors (adodbapiAvail pyodbcAvail : Bool) : List String :=
  (if adodbapiAvail then ["adodbapi"] else []) ++
    (if pyodbcAvail then ["odbc"] else [])

/-- Embeds the connector validation of `Connection.__init__`: the
configured value (default `'adodbapi'`) is kept verbatim when its
lowercase form is an available connector, else replaced by `'adodbapi'`
(the invalid case only logs, it never raises). -/
def init_connector (initCfg : Inst) (adodbapiAvail pyodbcAvail : Bool) :
    String :=
  if !(valid_connectors adodbapiAvail pyodbcAvail).contains
      (pyLower ((initCfg "connector").getD "adodbapi")) then
    "adodbapi"
  else (initCfg "connector").getD "adodbapi" 

/-- Embeds the ADO-provider validation of `Connection.__init__`: the
configured value (default `'SQLOLEDB'`) is kept verbatim when its
uppercase form is an allowed provider, else replaced by `'SQLOLEDB'`. -/
def init_adoprovider (initCfg : Inst) : String :=
  if !valid_adoproviders.contains
      (pyUpper ((initCfg "adoprovider").getD "SQLOLEDB")) then "SQLOLEDB"
  else (initCfg "adoprovider").getD "SQLOLEDB" 

/-- Embeds `Connection.get_connector`. `selfConnector` is the value fixed
by `__init__`. A differing per-call value is validated: an invalid one
falls back to `selfConnector`; a valid one is logged with
`self.instance['host']`, a plain `dict` subscript whose `KeyError`
escapes when the instance has no `'host'` key (log arguments are
evaluated eagerly in Python), modelled as `Except.error`. -/
def get_connector (inst : Inst) (selfConnector : String)
    (adodbapiAvail pyodbcAvail : Bool) : Except String String :=
  if (inst "connector").getD selfConnector ≠ selfConnector then
    if !(valid_connectors adodbapiAvail pyodbcAvail).contains
        (pyLower ((inst "connector").getD selfConnector)) then
      .ok selfConnector
    else
      match inst "host" with
      | none => .error "KeyError: host"
      | some _ => .ok ((inst "connector").getD selfConnector)
  else .ok ((inst "connector").getD selfConnector)

/-- Embeds `Connection._get_adoprovider`. The per-call default is the
class default `'SQLOLEDB'`, not `selfAdoprovider`; a differing value is
validated, an invalid one falls back to `selfAdoprovider`, a valid one
logs `self.instance['host']` (raises `KeyError` if absent). -/
def get_adoprovider (inst : Inst) (selfAdoprovider : String) :
    Except String String :=
  if (inst "adoprovider").getD "SQLOLEDB" ≠ selfAdoprovider then
    if !valid_adoproviders.contains
        (pyUpper ((inst "adoprovider").getD "SQLOLEDB")) then
      .ok selfAdoprovider
    else
      match inst "host" with
      | none => .error "KeyError: host"
      | some _ => .ok ((inst "adoprovider").getD "SQLOLEDB")
  else .ok ((inst "adoprovider").getD "SQLOLEDB")

/-- Embeds `Connection._conn_string_odbc` in the branch that receives
live access info (the only way the class itself calls it): each
`attribute=value;` pair is emitted only when its source value is truthy. -/
def conn_string_odbc (a : AccessInfo) : String :=
  let s0 := if truthy a.dsn then "DSN=" ++ a.dsn.getD "" ++ ";" else ""
  let s1 := if truthy a.driver then s0 ++ "DRIVER=" ++ a.driver.getD "" ++ ";" else s0
  let s2 := if truthy a.host then s1 ++ "Server=" ++ a.host.getD "" ++ ";" else s1
  let s3 := if truthy a.database then s2 ++ "Database=" ++ a.database.getD "" ++ ";" else s2
  let s4 := if truthy a.username then s3 ++ "UID=" ++ a.username.getD "" ++ ";" else s3
  if truthy a.password then s4 ++ "PWD=" ++ a.password.getD "" ++ ";" else s4

/-- Embeds `Connection._conn_string_adodbapi` in the live-access-info
branch. Provider resolution may raise (see `get_adoprovider`); host and
database are rendered through `format` (so `None` prints as `"None"`);
with neither username nor password truthy the integrated-security marker
is appended. -/
def conn_string_adodbapi (inst : Inst) (selfAdoprovider : String)
    (a : AccessInfo) : Except String String :=
  match get_adoprovider inst selfAdoprovider with
  | .error e => .error e
  | .ok provider =>
    let s0 := "Provider=" ++ provider ++ ";Data Source=" ++ pyStr a.host ++
      ";Initial Catalog=" ++ pyStr a.database ++ ";"
    let s1 := if truthy a.username then s0 ++ "User ID=" ++ a.username.getD "" ++ ";" else s0
    let s2 := if truthy a.password then s1 ++ "Password=" ++ a.password.getD "" ++ ";" else s1
    .ok (if !truthy a.username && !truthy a.password then
      s2 ++ "Integrated Security=SSPI;" else s2)


/-- A physical driver connection handle. `closeOk` tells whether its
`close()` call succeeds (a failing close raises, which the source always
catches). -/
structure Handle where
  id : Nat
  closeOk : Bool
deriving Repr, DecidableEq

/-- Dict lookup (`d[k]` / `k in d`). The connection pool `self._conns`
is a Python dict, modelled as an association list holding at most one
entry per key (see `keys_nodup`). -/
def dlookup : List (String × Handle) → String → Option Handle
  | [], _ => none
  | (k, v) :: rest, q => if k = q then some v else dlookup rest q

/-- Dict assignment `d[k] = v`: replaces in place, appends when absent. -/
def dinsert : List (String × Handle) → String → Handle → List (String × Handle)
  | [], q, x => [(q, x)]
  | (k, v) :: rest, q, x =>
    if k = q then (q, x) :: rest else (k, v) :: dinsert rest q x

/-- Dict deletion `del d[k]`. -/
def dremove : List (String × Handle) → String → List (String × Handle)
  | [], _ => []
  | (k, v) :: rest, q => if k = q then rest else (k, v) :: dremove rest q

/-- The keys of a pool. -/
def dkeys (d : List (String × Handle)) : List String := d.map Prod.fst

/-- The pool maps each key to at most one entry. -/
abbrev keys_nodup (d : List (String × Handle)) : Prop := (dkeys d).Nodup

/-- The observable side effects of the connection layer, in program
order: service-check reports to the health bridge (the OK report carries
no message, the CRITICAL one carries the scrubbed message), attempts to
close a physical connection, log lines, and issuing the catalog query. -/
inductive Event where
  | reportOK (host database : Option String)
  | reportCritical (host database : Option String) (message : String)
  | closeAttempt (id : Nat)
  | logWarning (text : String)
  | logInfo (text : String)
  | logError (text : String)
  | queryIssued (sql : String)
deriving Repr, DecidableEq

/-- The module constant `DATABASE_EXISTS_QUERY`. -/
def DATABASE_EXISTS_QUERY : String := "select name from sys.databases;"

/-- Embeds `Connection.get_cursor(db_key, db_name)`: looks the cached
connection up under the derived key; a missing entry raises
`SQLConnectionError` with a message built from the fixed text and the
raw configured host only (the credential-bearing key is deliberately not
interpolated). On a hit the connection (standing for its cursor) is
returned. -/
def get_cursor (inst : Inst) (conns : List (String × Handle))
    (db_key db_name : Option String) : Except String Handle :=
  match dlookup conns (conn_key inst db_key db_name) with
  | some conn => .ok conn
  | none =>
    .error ("Cannot find an opened connection for host: " ++
      pyStr (inst "host"))

/-- The exception message built and scrubbed by the `except` block of
`open_db_connections`: `repr(e)` is the oracle-supplied text `e`; when a
password is configured, every occurrence of it is replaced by the fixed
six-star mask. -/
def failMessage (inst : Inst) (a : AccessInfo) (e : String) : String :=
  let raw := "Unable to connect to SQL Server for instance " ++ pyStr a.host ++
    " - " ++ pyStr a.database ++ ": " ++ e
  match inst "password" with
  | none => raw
  | some pw => pyReplace raw pw mask

/-- The `try`-block of `open_db_connections` up to and including the
driver `connect` call: selects the connector (which may raise a
`KeyError` out of the eager log arguments), builds the connection string
(prefixed by the raw `connection_string` fragment, semicolon-joined) and
hands it to the driver-connect oracle. Any error here is what the
`except` block catches. -/
def open_attempt (inst : Inst) (selfConnector selfAdoprovider : String)
    (adodbapiAvail pyodbcAvail : Bool) (db_key db_name : Option String)
    (connect : String → Except String Handle) : Except String Handle :=
  let a := get_access_info inst db_key db_name
  let cs0 := (inst "connection_string").getD ""
  let cs1 := if cs0 ≠ "" then cs0 ++ ";" else cs0
  match get_connector inst selfConnector adodbapiAvail pyodbcAvail with
  | .error e => .error e
  | .ok conn =>
    if conn = "adodbapi" then
      match conn_string_adodbapi inst selfAdoprovider a with
      | .error e => .error e
      | .ok s => connect (cs1 ++ s)
    else connect (cs1 ++ conn_string_odbc a)

/-- Embeds `Connection.open_db_connections(db_key, db_name)`. On connect
success: reports OK, then stores the new handle under the derived key —
when the key already holds a connection the stale one's `close()` is
attempted first (a failing close is logged and swallowed) and the entry
replaced. On any failure inside the `try`: builds the message, scrubs
the configured password, reports CRITICAL with the scrubbed message and
raises `SQLConnectionError` carrying it; the pool is returned in every
case (never touched on the failure path). -/
def open_db_connections (inst : Inst)
    (selfConnector selfAdoprovider : String)
    (adodbapiAvail pyodbcAvail : Bool) (db_key db_name : Option String)
    (connect : String → Except String Handle)
    (conns : List (String × Handle)) :
    Except String Unit × List (String × Handle) × List Event :=
  let ck := conn_key inst db_key db_name
  let a := get_access_info inst db_key db_name
  match open_attempt inst selfConnector selfAdoprovider adodbapiAvail
      pyodbcAvail db_key db_name connect with
  | .ok rawconn =>
    match dlookup conns ck with
    | none =>
      (.ok (), dinsert conns ck rawconn, [.reportOK a.host a.database])
    | some old =>
      (.ok (), dinsert conns ck rawconn,
        [.reportOK a.host a.database, .closeAttempt old.id] ++
          (if old.closeOk then []
           else [.logInfo "Could not close adodbapi db connection"]))
  | .error e =>
    let message := failMessage inst a e
    (.error message, conns,
      [.reportCritical a.host a.database message])

/-- Embeds `Connection.close_db_connections(db_key, db_name)`: a no-op
when the derived key is absent; otherwise the handle's `close()` is
attempted and, only when it succeeds, the entry deleted — on a failing
close the exception is logged as a warning and swallowed and the stale
entry stays (`del` is skipped). The function never raises. -/
def close_db_connections (inst : Inst) (db_key db_name : Option String)
    (conns : List (String × Handle)) :
    List (String × Handle) × List Event :=
  let ck := conn_key inst db_key db_name
  match dlookup conns ck with
  | none => (conns, [])
  | some h =>
    if h.closeOk then (dremove conns ck, [.closeAttempt h.id])
    else
      (conns,
        [.closeAttempt h.id,
          .logWarning "Could not close adodbapi db connection"])

/-- The mutable check-level state touched by `_check_db_exists`. -/
structure DbState where
  conns : List (String × Handle)
  existing_databases : Option (List String)
deriving Repr, DecidableEq

/-- The oracle outcome of running `DATABASE_EXISTS_QUERY` and iterating
the cursor: `execError` models `cursor.execute` raising, `iterError`
models the row iteration raising after having yielded `consumed` names,
`okRows` the successful enumeration. -/
inductive ProbeExec where
  | execError (e : String)
  | iterError (consumed : List String) (e : String)
  | okRows (rows : List String)
deriving Repr, DecidableEq

/-- Python `database in self.existing_databases` for the optional
resolved database name against the cached name set. -/
def dbMember (database : Option String) (dbs : List String) : Bool :=
  match database with
  | none => false
  | some d => dbs.contains d

/-- Embeds `Connection._check_db_exists`. The context string is always
`"{host} - {database}"` from the access info for the default db key.
With a populated cache the cached set answers directly (no query). With
an empty cache a cursor against `master` is fetched (its miss raises
`SQLConnectionError` out of the method); then `existing_databases` is
assigned `{}` *inside* the `try` and filled row by row, so a failing
execute leaves it set to the empty set and a failing iteration leaves it
set to the names consumed so far, while `(False, context)` is returned
without raising. -/
def check_db_exists (inst : Inst) (exec : ProbeExec) (st : DbState) :
    Except String (Bool × String) × DbState × List Event :=
  let a := get_access_info inst (some "database") none
  let context := pyStr a.host ++ " - " ++ pyStr a.database
  match st.existing_databases with
  | some dbs => (.ok (dbMember a.database dbs, context), st, [])
  | none =>
    match dlookup st.conns (conn_key inst none (some "master")) with
    | none =>
      (.error ("Cannot find an opened connection for host: " ++
        pyStr (inst "host")), st, [])
    | some _ =>
      match exec with
      | .execError e =>
        (.ok (false, context), { st with existing_databases := some [] },
          [.queryIssued DATABASE_EXISTS_QUERY, .logError e])
      | .iterError consumed e =>
        (.ok (false, context),
          { st with existing_databases := some consumed },
          [.queryIssued DATABASE_EXISTS_QUERY, .logError e])
      | .okRows rows =>
        (.ok (dbMember a.database rows, context),
          { st with existing_databases := some rows },
          [.queryIssued DATABASE_EXISTS_QUERY])

/-- A nonempty pattern is not empty as a boolean. -/
theorem isEmpty_false_of_ne_nil {p : List Char} (hp : p ≠ []) :
    p.isEmpty = false := by
  cases p with
  | nil => exact absurd rfl hp
  | cons a as => rfl

/-- A star-free prefix of a replacement result (with an all-star,
nonempty replacement) is a prefix of the original list: replacement only
inserts stars, so star-free material comes from the input. -/
theorem star_prefix_transfer (p r : List Char) (hp : p ≠ [])
    (hr : ∀ c ∈ r, c = '*') (hrne : r ≠ []) :
    ∀ n s, s.length ≤ n → ∀ q, '*' ∉ q → q <+: replL p r s → q <+: s := by
  intro n
  induction n using Nat.strong_induction_on with
  | _ n ih =>
    intro s hs q hq hpre
    cases s with
    | nil =>
      rw [replL_nil, isEmpty_false_of_ne_nil hp] at hpre
      simpa using hpre
    | cons c cs =>
      rw [replL_cons, isEmpty_false_of_ne_nil hp] at hpre
      simp only [Bool.false_eq_true, if_false] at hpre
      have hcs : cs.length < n := by
        simp only [List.length_cons] at hs
        omega
      by_cases hm : p.isPrefixOf (c :: cs) = true
      · rw [if_pos hm] at hpre
        cases q with
        | nil => exact List.nil_prefix
        | cons qc q₁ =>
          obtain ⟨t, ht⟩ := hpre
          cases r with
          | nil => exact absurd rfl hrne
          | cons rc r₁ =>
            have hrc : rc = '*' := hr rc (List.mem_cons_self rc r₁)
            simp only [List.cons_append, List.cons.injEq] at ht
            exact False.elim (hq (by rw [← ht.1.trans hrc]; exact List.mem_cons_self qc q₁))
      · rw [if_neg hm] at hpre
        cases q with
        | nil => exact List.nil_prefix
        | cons qc q₁ =>
          obtain ⟨t, ht⟩ := hpre
          simp only [List.cons_append, List.cons.injEq] at ht
          have hq₁ : '*' ∉ q₁ := fun h => hq (List.mem_cons_of_mem qc h)
          have : q₁ <+: replL p r cs := ⟨t, ht.2⟩
          have : q₁ <+: cs :=
            ih cs.length hcs cs (Nat.le_refl _) q₁ hq₁ this
          obtain ⟨u, hu⟩ := this
          exact ⟨u, by simp [ht.1, hu]⟩

/-- An occurrence of a star-free, nonempty pattern in an all-star block
followed by a tail must lie inside the tail. -/
theorem star_peel (p : List Char) (hp : p ≠ []) (hps : '*' ∉ p) :
    ∀ m X, (∀ c ∈ m, c = '*') → p <:+: m ++ X → p <:+: X := by
  intro m
  induction m with
  | nil => intro X _ h; simpa using h
  | cons mc m₁ ihm =>
    intro X hm h
    have hmc : mc = '*' := hm mc (List.mem_cons_self mc m₁)
    rw [List.cons_append, List.infix_cons_iff] at h
    rcases h with h | h
    · cases p with
      | nil => exact absurd rfl hp
      | cons pc p₁ =>
        rw [List.cons_prefix_cons] at h
        exact False.elim (hps (by rw [← h.1.trans hmc]; exact List.mem_cons_self pc p₁))
    · exact ihm X (fun c hc => hm c (List.mem_cons_of_mem mc hc)) h

/-- After replacing every occurrence of a star-free, nonempty pattern by
an all-star mask, the pattern no longer occurs anywhere in the result. -/
theorem scrub_no_occurrence_list (p r : List Char) (hp : p ≠ [])
    (hps : '*' ∉ p) (hr : ∀ c ∈ r, c = '*') (hrne : r ≠ []) :
    ∀ n s, s.length ≤ n → ¬ p <:+: replL p r s := by
  intro n
  induction n using Nat.strong_induction_on with
  | _ n ih =>
    intro s hs h
    cases s with
    | nil =>
      rw [replL_nil, isEmpty_false_of_ne_nil hp] at h
      simp only [Bool.false_eq_true, if_false, List.infix_nil] at h
      exact hp h
    | cons c cs =>
      rw [replL_cons, isEmpty_false_of_ne_nil hp] at h
      simp only [Bool.false_eq_true, if_false] at h
      have hcs : cs.length < n := by
        simp only [List.length_cons] at hs
        omega
      by_cases hm : p.isPrefixOf (c :: cs) = true
      · rw [if_pos hm] at h
        have hdrop : (List.drop (p.length - 1) cs).length ≤ cs.length := by
          simp only [List.length_drop]
          omega
        exact ih cs.length hcs _ hdrop (star_peel p hp hps r _ hr h)
      · rw [if_neg hm] at h
        rw [List.infix_cons_iff] at h
        rcases h with h | h
        · cases p with
          | nil => exact absurd rfl hp
          | cons pc p₁ =>
            rw [List.cons_prefix_cons] at h
            have hp₁ : '*' ∉ p₁ := fun hx => hps (List.mem_cons_of_mem pc hx)
            have : p₁ <+: cs :=
              star_prefix_transfer (pc :: p₁) r hp hr hrne cs.length cs
                (Nat.le_refl _) p₁ hp₁ h.2
            obtain ⟨u, hu⟩ := this
            have : (pc :: p₁).isPrefixOf (c :: cs) = true := by
              rw [List.isPrefixOf_iff_prefix, h.1]
              exact ⟨u, by simp [hu]⟩
            exact hm this
        · exact ih cs.length hcs cs (Nat.le_refl _) h

/-- Replacement is the identity on a list with no occurrence of the
(nonempty) pattern. -/
theorem replL_of_no_occurrence (p r : List Char) (hp : p ≠ []) :
    ∀ t, ¬ p <:+: t → replL p r t = t := by
  intro t
  induction t with
  | nil => intro _; rw [replL_nil, isEmpty_false_of_ne_nil hp]; rfl
  | cons c cs iht =>
    intro h
    have hm : p.isPrefixOf (c :: cs) ≠ true := by
      intro hx
      exact h ⟨[], (c :: cs).drop p.length, by
        simpa using List.prefix_iff_eq_append.mp
          (List.isPrefixOf_iff_prefix.mp hx)⟩
    rw [replL_cons, isEmpty_false_of_ne_nil hp, if_neg hm]
    simp only [Bool.false_eq_true, if_false]
    rw [iht (fun hx => h (List.infix_cons hx))]

/-- The two string-level scrub facts used by the claims: with a nonempty
star-free password, the scrubbed text contains no occurrence of the
password, and scrubbing a second time changes nothing. -/
theorem pyReplace_scrub (s pw : String) (hne : pw ≠ "")
    (hps : '*' ∉ pw.data) :
    ¬ pw.data <:+: (pyReplace s pw mask).data ∧
      pyReplace (pyReplace s pw mask) pw mask = pyReplace s pw mask := by
  have hp : pw.data ≠ [] := by
    intro h
    exact hne (String.ext (h.trans rfl))
  have hr : ∀ c ∈ mask.data, c = '*' := by decide
  have hrne : mask.data ≠ [] := by decide
  have hocc : ¬ pw.data <:+: replL pw.data mask.data s.data :=
    scrub_no_occurrence_list pw.data mask.data hp hps hr hrne
      s.data.length s.data (Nat.le_refl _)
  refine ⟨hocc, ?_⟩
  apply String.ext
  show replL pw.data mask.data (replL pw.data mask.data s.data) = _
  exact replL_of_no_occurrence pw.data mask.data hp _ hocc

/-- Splitting a separator-free list yields that list alone. -/
theorem splitOnChar_no_sep (sep : Char) :
    ∀ a : List Char, sep ∉ a → splitOnChar sep a = [a] := by
  intro a
  induction a with
  | nil => intro _; rfl
  | cons c cs ihc =>
    intro h
    have hc : ¬ c = sep := fun hx => h (hx ▸ List.mem_cons_self c cs)
    have hcs : sep ∉ cs := fun hx => h (List.mem_cons_of_mem c hx)
    simp only [splitOnChar, if_neg hc, ihc hcs]

/-- Splitting past a separator-free chunk peels that chunk off. -/
theorem splitOnChar_append (sep : Char) :
    ∀ (a rest : List Char), sep ∉ a →
      splitOnChar sep (a ++ sep :: rest) = a :: splitOnChar sep rest := by
  intro a
  induction a with
  | nil => intro rest _; simp [splitOnChar]
  | cons c cs ihc =>
    intro rest h
    have hc : ¬ c = sep := fun hx => h (hx ▸ List.mem_cons_self c cs)
    have hcs : sep ∉ cs := fun hx => h (List.mem_cons_of_mem c hx)
    simp only [List.cons_append, splitOnChar, if_neg hc, List.append_eq]
    rw [ihc rest hcs]

/-- Python `split(':')` undoes the `:`-join of six colon-free strings. -/
theorem pySplit_join_six (f₁ f₂ f₃ f₄ f₅ f₆ : String)
    (h₁ : ':' ∉ f₁.data) (h₂ : ':' ∉ f₂.data) (h₃ : ':' ∉ f₃.data)
    (h₄ : ':' ∉ f₄.data) (h₅ : ':' ∉ f₅.data) (h₆ : ':' ∉ f₆.data) :
    pySplit ':' (f₁ ++ ":" ++ f₂ ++ ":" ++ f₃ ++ ":" ++ f₄ ++ ":" ++ f₅ ++
      ":" ++ f₆) = [f₁, f₂, f₃, f₄, f₅, f₆] := by
  show ((splitOnChar ':'
    (f₁ ++ ":" ++ f₂ ++ ":" ++ f₃ ++ ":" ++ f₄ ++ ":" ++ f₅ ++ ":" ++
      f₆).data).map String.mk) = _
  have hdata : (f₁ ++ ":" ++ f₂ ++ ":" ++ f₃ ++ ":" ++ f₄ ++ ":" ++ f₅ ++
      ":" ++ f₆).data =
      f₁.data ++ ':' :: (f₂.data ++ ':' :: (f₃.data ++ ':' ::
        (f₄.data ++ ':' :: (f₅.data ++ ':' :: f₆.data)))) := by
    simp [String.data_append]
  rw [hdata, splitOnChar_append _ _ _ h₁, splitOnChar_append _ _ _ h₂,
    splitOnChar_append _ _ _ h₃, splitOnChar_append _ _ _ h₄,
    splitOnChar_append _ _ _ h₅, splitOnChar_no_sep _ _ h₆]
  rfl


/-- Keys of a cons cell, definitionally. -/
theorem dkeys_cons (e : String × Handle) (rest : List (String × Handle)) :
    dkeys (e :: rest) = e.1 :: dkeys rest := rfl

/-- Membership in the keys after an insert. -/
theorem mem_dkeys_dinsert (d : List (String × Handle)) (k : String)
    (v : Handle) (x : String) :
    x ∈ dkeys (dinsert d k v) ↔ x = k ∨ x ∈ dkeys d := by
  induction d with
  | nil => simp [dinsert, dkeys]
  | cons e rest ihd =>
    by_cases he : e.1 = k
    · show x ∈ dkeys (if e.1 = k then (k, v) :: rest else _) ↔ _
      rw [if_pos he, dkeys_cons, dkeys_cons, ← he]
      simp only [List.mem_cons]
      constructor
      · rintro (hx | hx)
        · exact Or.inl hx
        · exact Or.inr (Or.inr hx)
      · rintro (hx | hx | hx)
        · exact Or.inl hx
        · exact Or.inl hx
        · exact Or.inr hx
    · show x ∈ dkeys (if e.1 = k then _ else e :: dinsert rest k v) ↔ _
      rw [if_neg he, dkeys_cons, dkeys_cons]
      simp only [List.mem_cons, ihd]
      constructor
      · rintro (hx | hx | hx)
        · exact Or.inr (Or.inl hx)
        · exact Or.inl hx
        · exact Or.inr (Or.inr hx)
      · rintro (hx | hx | hx)
        · exact Or.inr (Or.inl hx)
        · exact Or.inl hx
        · exact Or.inr (Or.inr hx)

/-- Insertion keeps the keys duplicate-free. -/
theorem keys_nodup_dinsert (d : List (String × Handle)) (k : String)
    (v : Handle) (h : keys_nodup d) : keys_nodup (dinsert d k v) := by
  induction d with
  | nil => simp [keys_nodup, dkeys, dinsert]
  | cons e rest ihd =>
    have hpair := List.nodup_cons.mp (show (e.1 :: dkeys rest).Nodup from h)
    by_cases he : e.1 = k
    · show keys_nodup (if e.1 = k then (k, v) :: rest else _)
      rw [if_pos he]
      show (k :: dkeys rest).Nodup
      exact List.nodup_cons.mpr ⟨by rw [← he]; exact hpair.1, hpair.2⟩
    · show keys_nodup (if e.1 = k then _ else e :: dinsert rest k v)
      rw [if_neg he]
      show (e.1 :: dkeys (dinsert rest k v)).Nodup
      refine List.nodup_cons.mpr ⟨?_, ihd hpair.2⟩
      rw [mem_dkeys_dinsert]
      rintro (hx | hx)
      · exact he hx
      · exact hpair.1 hx

/-- Keys after a removal are among the original keys. -/
theorem mem_dkeys_dremove (d : List (String × Handle)) (k x : String) :
    x ∈ dkeys (dremove d k) → x ∈ dkeys d := by
  induction d with
  | nil => simp [dremove]
  | cons e rest ihd =>
    by_cases he : e.1 = k
    · show x ∈ dkeys (if e.1 = k then rest else _) → _
      rw [if_pos he]
      intro h
      exact List.mem_cons_of_mem _ h
    · show x ∈ dkeys (if e.1 = k then _ else e :: dremove rest k) → _
      rw [if_neg he, dkeys_cons, dkeys_cons]
      simp only [List.mem_cons]
      rintro (h | h)
      · exact Or.inl h
      · exact Or.inr (ihd h)

/-- Removal keeps the keys duplicate-free. -/
theorem keys_nodup_dremove (d : List (String × Handle)) (k : String)
    (h : keys_nodup d) : keys_nodup (dremove d k) := by
  induction d with
  | nil => exact h
  | cons e rest ihd =>
    have hpair := List.nodup_cons.mp (show (e.1 :: dkeys rest).Nodup from h)
    by_cases he : e.1 = k
    · show keys_nodup (if e.1 = k then rest else _)
      rw [if_pos he]
      exact hpair.2
    · show keys_nodup (if e.1 = k then _ else e :: dremove rest k)
      rw [if_neg he]
      show (e.1 :: dkeys (dremove rest k)).Nodup
      exact List.nodup_cons.mpr
        ⟨fun hx => hpair.1 (mem_dkeys_dremove rest k e.1 hx), ihd hpair.2⟩

/-- Lookup misses exactly the keys that are absent. -/
theorem dlookup_eq_none_iff (d : List (String × Handle)) (k : String) :
    dlookup d k = none ↔ k ∉ dkeys d := by
  induction d with
  | nil => simp [dlookup, dkeys]
  | cons e rest ihd =>
    show (if e.1 = k then some e.2 else dlookup rest k) = none ↔ _
    rw [dkeys_cons]
    by_cases he : e.1 = k
    · rw [if_pos he, he]
      simp
    · rw [if_neg he]
      simp only [List.mem_cons, ihd]
      constructor
      · rintro h (hx | hx)
        · exact he hx.symm
        · exact h hx
      · intro h hx
        exact h (Or.inr hx)

/-- With duplicate-free keys, deleting a key makes its lookup miss. -/
theorem dlookup_dremove_self (d : List (String × Handle)) (k : String)
    (h : keys_nodup d) : dlookup (dremove d k) k = none := by
  induction d with
  | nil => rfl
  | cons e rest ihd =>
    have hpair := List.nodup_cons.mp (show (e.1 :: dkeys rest).Nodup from h)
    by_cases he : e.1 = k
    · show dlookup (if e.1 = k then rest else _) k = none
      rw [if_pos he, dlookup_eq_none_iff]
      rw [← he]
      exact hpair.1
    · show dlookup (if e.1 = k then _ else e :: dremove rest k) k = none
      rw [if_neg he]
      show (if e.1 = k then some e.2 else dlookup (dremove rest k) k) = none
      rw [if_neg he]
      exact ihd hpair.2

/-- Builds a concrete configuration dict from a key/value list. -/
def cfgOf (ps : List (String × String)) : Inst := fun k =>
  (ps.find? (fun q => q.1 == k)).map Prod.snd

/-- A configuration with only a host and a password. -/
def cfgHostPw : Inst := cfgOf [("host", "h"), ("password", "secret")]

/-- A configuration whose password is a fragment of the mask. -/
def cfgStarPw : Inst := cfgOf [("host", "h"), ("password", "**")]

/-- A configuration whose password coincides with text of the
cursor-miss message. -/
def cfgPwHost : Inst := cfgOf [("host", "h"), ("password", "host")]

/-- A configuration whose password contains the key separator `:`. -/
def cfgColonPw : Inst :=
  cfgOf [("dsn", "x"), ("host", "h"), ("username", "u"),
    ("password", "a:b"), ("driver", "v")]

/-- A fully explicit colon-free configuration. -/
def cfgFull : Inst :=
  cfgOf [("host", "h"), ("username", "u"), ("password", "pw"),
    ("database", "db1"), ("driver", "drv")]

/-- A configuration with a host and a target database only. -/
def cfgHostDb : Inst := cfgOf [("host", "h"), ("database", "db1")]

/-- An empty configuration (every field absent). -/
def cfgEmpty : Inst := cfgOf []

/-- C7. For every configuration without a (truthy) DSN,
`_get_access_info` resolves each of host, database and driver to its
fixed default (`127.0.0.1,1433`, `master`, `SQL Server`) whenever the
corresponding configured value is absent or empty; the resolution is a
total pure function (no failure path). -/
theorem C7_access_info_defaults (inst : Inst) (db_key db_name : Option String)
    (hdsn : truthy (inst "dsn") = false) :
    (truthy (inst "host") = false →
      (get_access_info inst db_key db_name).host = some "127.0.0.1,1433") ∧
    (truthy (dbSource inst db_key db_name) = false →
      (get_access_info inst db_key db_name).database = some "master") ∧
    (truthy (inst "driver") = false →
      (get_access_info inst db_key db_name).driver = some "SQL Server") := by
  refine ⟨fun h => ?_, fun h => ?_, fun h => ?_⟩ <;>
    simp [get_access_info, hdsn, h]

/-- C7 witness: the empty configuration resolves to all three defaults. -/
theorem C7_access_info_defaults_witness :
    truthy (cfgEmpty "dsn") = false ∧
    (get_access_info cfgEmpty (some "database") none).host =
      some "127.0.0.1,1433" ∧
    (get_access_info cfgEmpty (some "database") none).database =
      some "master" ∧
    (get_access_info cfgEmpty (some "database") none).driver =
      some "SQL Server" := by
  have h := C7_access_info_defaults cfgEmpty (some "database") none (by decide)
  exact ⟨by decide, h.1 (by decide), h.2.1 (by decide), h.2.2 (by decide)⟩

/-- C8. With username and password both falsy, the odbc builder's output
is exactly the DSN/DRIVER/Server/Database segments — no `UID=` and no
`PWD=` segment is appended — and the adodbapi builder's output is exactly
the Provider/Data Source/Initial Catalog segments followed by the
integrated-security marker — no `User ID=` and no `Password=` segment. -/
theorem C8_builders_no_credentials (inst : Inst) (selfAdoprovider : String)
    (a : AccessInfo) (prov : String)
    (hu : truthy a.username = false) (hp : truthy a.password = false)
    (hado : get_adoprovider inst selfAdoprovider = .ok prov) :
    conn_string_odbc a =
      (if truthy a.dsn then "DSN=" ++ a.dsn.getD "" ++ ";" else "") ++
      (if truthy a.driver then "DRIVER=" ++ a.driver.getD "" ++ ";" else "") ++
      (if truthy a.host then "Server=" ++ a.host.getD "" ++ ";" else "") ++
      (if truthy a.database then "Database=" ++ a.database.getD "" ++ ";" else "") ∧
    conn_string_adodbapi inst selfAdoprovider a =
      .ok ("Provider=" ++ prov ++ ";Data Source=" ++ pyStr a.host ++
        ";Initial Catalog=" ++ pyStr a.database ++ ";" ++
        "Integrated Security=SSPI;") := by
  constructor
  · apply String.ext
    by_cases h1 : truthy a.dsn <;> by_cases h2 : truthy a.driver <;>
      by_cases h3 : truthy a.host <;> by_cases h4 : truthy a.database <;>
      simp [conn_string_odbc, hu, hp, h1, h2, h3, h4]
  · simp only [conn_string_adodbapi, hado, hu, hp]
    simp

/-- C8 witness: for host `h` and database `d` with no credentials, the
two builders produce exactly the credential-free strings of the spec,
and neither `UID=`, `PWD=`, `User ID=` nor `Password=` occurs in them. -/
theorem C8_builders_no_credentials_witness :
    truthy (AccessInfo.mk none (some "h") none none (some "d")
      (some "SQL Server")).username = false ∧
    conn_string_odbc
        (AccessInfo.mk none (some "h") none none (some "d")
          (some "SQL Server")) =
      "DRIVER=SQL Server;Server=h;Database=d;" ∧
    conn_string_adodbapi cfgHostDb "SQLOLEDB"
        (AccessInfo.mk none (some "h") none none (some "d")
          (some "SQL Server")) =
      .ok ("Provider=SQLOLEDB;Data Source=h;Initial Catalog=d;" ++
        "Integrated Security=SSPI;") ∧
    ¬ ("UID=" : String).data <:+:
      ("DRIVER=SQL Server;Server=h;Database=d;" : String).data ∧
    ¬ ("PWD=" : String).data <:+:
      ("DRIVER=SQL Server;Server=h;Database=d;" : String).data ∧
    ¬ ("User ID=" : String).data <:+:
      ("Provider=SQLOLEDB;Data Source=h;Initial Catalog=d;Integrated Security=SSPI;" : String).data ∧
    ¬ ("Password=" : String).data <:+:
      ("Provider=SQLOLEDB;Data Source=h;Initial Catalog=d;Integrated Security=SSPI;" : String).data := by
  have h := C8_builders_no_credentials cfgHostDb "SQLOLEDB"
    (AccessInfo.mk none (some "h") none none (some "d") (some "SQL Server"))
    "SQLOLEDB" (by decide) (by decide) (by decide)
  refine ⟨by decide, ?_, ?_, by decide, by decide, by decide, by decide⟩
  · rw [h.1]
    decide
  · rw [h.2]
    decide

/-- C4 counterexample: with the password `a:b` the serialized key splits
into seven parts, not the six access fields, so the round-trip of the
claim fails as stated. -/
theorem C4_conn_key_counterexample :
    conn_key cfgColonPw none (some "d") = "x:h:u:a:b:d:v" ∧
    pySplit ':' (conn_key cfgColonPw none (some "d")) ≠
      [pyStr (get_access_info cfgColonPw none (some "d")).dsn,
       pyStr (get_access_info cfgColonPw none (some "d")).host,
       pyStr (get_access_info cfgColonPw none (some "d")).username,
       pyStr (get_access_info cfgColonPw none (some "d")).password,
       pyStr (get_access_info cfgColonPw none (some "d")).database,
       pyStr (get_access_info cfgColonPw none (some "d")).driver] := by
  decide

/-- C4 (amended). `_conn_key` is a pure deterministic function of the
configuration (configurations agreeing pointwise give the identical
key), and — provided no serialized field contains `:` (`None` fields
serialize as `"None"`) — splitting the key on `:` reproduces exactly the
six serialized access fields; a field containing `:` (e.g. the password
`a:b`) breaks the round-trip. -/
theorem C4_conn_key_roundtrip (inst inst₂ : Inst)
    (db_key db_name : Option String)
    (hagree : ∀ k, inst k = inst₂ k)
    (h₁ : ':' ∉ (pyStr (get_access_info inst db_key db_name).dsn).data)
    (h₂ : ':' ∉ (pyStr (get_access_info inst db_key db_name).host).data)
    (h₃ : ':' ∉ (pyStr (get_access_info inst db_key db_name).username).data)
    (h₄ : ':' ∉ (pyStr (get_access_info inst db_key db_name).password).data)
    (h₅ : ':' ∉ (pyStr (get_access_info inst db_key db_name).database).data)
    (h₆ : ':' ∉ (pyStr (get_access_info inst db_key db_name).driver).data) :
    conn_key inst db_key db_name = conn_key inst₂ db_key db_name ∧
    pySplit ':' (conn_key inst db_key db_name) =
      [pyStr (get_access_info inst db_key db_name).dsn,
       pyStr (get_access_info inst db_key db_name).host,
       pyStr (get_access_info inst db_key db_name).username,
       pyStr (get_access_info inst db_key db_name).password,
       pyStr (get_access_info inst db_key db_name).database,
       pyStr (get_access_info inst db_key db_name).driver] := by
  have hi : inst = inst₂ := funext hagree
  subst hi
  exact ⟨rfl, pySplit_join_six _ _ _ _ _ _ h₁ h₂ h₃ h₄ h₅ h₆⟩

/-- C4 witness: for the colon-free full configuration the key splits
back into the six serialized fields. -/
theorem C4_conn_key_roundtrip_witness :
    (∀ k, cfgFull k = cfgFull k) ∧
    pySplit ':' (conn_key cfgFull (some "database") none) =
      ["None", "h", "u", "pw", "db1", "drv"] := by
  have h := C4_conn_key_roundtrip cfgFull cfgFull (some "database") none
    (fun _ => rfl) (by decide) (by decide) (by decide) (by decide)
    (by decide) (by decide)
  refine ⟨fun _ => rfl, ?_⟩
  rw [h.2]
  decide

/-- An init configuration selecting the odbc connector. -/
def cfgInitOdbc : Inst := cfgOf [("connector", "odbc")]

/-- An instance configuration with an unsupported connector override. -/
def cfgBogusConn : Inst := cfgOf [("connector", "bogus"), ("host", "h")]

/-- An instance configuration with a valid connector override and host. -/
def cfgOdbcHost : Inst := cfgOf [("connector", "odbc"), ("host", "h")]

/-- An instance configuration with an unsupported provider override. -/
def cfgBogusProv : Inst := cfgOf [("adoprovider", "bogus"), ("host", "h")]

/-- C9 counterexample: with a valid non-default initialization choice
(`odbc` / `MSOLEDBSQL`), an invalid per-call override falls back to that
initialization-validated value, not to the fixed defaults `adodbapi` /
`SQLOLEDB` the claim names. -/
theorem C9_selector_counterexample :
    init_connector cfgInitOdbc true true = "odbc" ∧
    get_connector cfgBogusConn "odbc" true true = .ok "odbc" ∧
    (Except.ok "odbc" : Except String String) ≠ .ok "adodbapi" ∧
    get_adoprovider cfgBogusProv "MSOLEDBSQL" = .ok "MSOLEDBSQL" ∧
    (Except.ok "MSOLEDBSQL" : Except String String) ≠ .ok "SQLOLEDB" := by
  decide

/-- C9 (amended). Initialization: an invalid configured connector or ADO
provider is replaced by the fixed default (`adodbapi` / `SQLOLEDB`) and
never raises, a valid one is returned unchanged. Per call: an invalid
override falls back — without raising — to the *initialization-validated*
value (`self.connector` / `self.adoprovider`), which equals the fixed
default only when initialization used it; a valid differing override is
returned unchanged provided the instance defines `host` (the
override-logging path subscripts `self.instance['host']` eagerly). -/
theorem C9_selector_fallback (initCfg inst : Inst)
    (adodbapiAvail pyodbcAvail : Bool) (selfConnector selfAdoprovider : String) :
    ((valid_connectors adodbapiAvail pyodbcAvail).contains
        (pyLower ((initCfg "connector").getD "adodbapi")) = false →
      init_connector initCfg adodbapiAvail pyodbcAvail = "adodbapi") ∧
    ((valid_connectors adodbapiAvail pyodbcAvail).contains
        (pyLower ((initCfg "connector").getD "adodbapi")) = true →
      init_connector initCfg adodbapiAvail pyodbcAvail =
        (initCfg "connector").getD "adodbapi") ∧
    (valid_adoproviders.contains
        (pyUpper ((initCfg "adoprovider").getD "SQLOLEDB")) = false →
      init_adoprovider initCfg = "SQLOLEDB") ∧
    (valid_adoproviders.contains
        (pyUpper ((initCfg "adoprovider").getD "SQLOLEDB")) = true →
      init_adoprovider initCfg = (initCfg "adoprovider").getD "SQLOLEDB") ∧
    ((inst "connector").getD selfConnector ≠ selfConnector →
      (valid_connectors adodbapiAvail pyodbcAvail).contains
        (pyLower ((inst "connector").getD selfConnector)) = false →
      get_connector inst selfConnector adodbapiAvail pyodbcAvail =
        .ok selfConnector) ∧
    (∀ h, (inst "connector").getD selfConnector ≠ selfConnector →
      (valid_connectors adodbapiAvail pyodbcAvail).contains
        (pyLower ((inst "connector").getD selfConnector)) = true →
      inst "host" = some h →
      get_connector inst selfConnector adodbapiAvail pyodbcAvail =
        .ok ((inst "connector").getD selfConnector)) ∧
    ((inst "adoprovider").getD "SQLOLEDB" ≠ selfAdoprovider →
      valid_adoproviders.contains
        (pyUpper ((inst "adoprovider").getD "SQLOLEDB")) = false →
      get_adoprovider inst selfAdoprovider = .ok selfAdoprovider) ∧
    (∀ h, (inst "adoprovider").getD "SQLOLEDB" ≠ selfAdoprovider →
      valid_adoproviders.contains
        (pyUpper ((inst "adoprovider").getD "SQLOLEDB")) = true →
      inst "host" = some h →
      get_adoprovider inst selfAdoprovider =
        .ok ((inst "adoprovider").getD "SQLOLEDB")) := by
  refine ⟨fun h1 => ?_, fun h1 => ?_, fun h1 => ?_, fun h1 => ?_,
    fun h1 h2 => ?_, fun h h1 h2 h3 => ?_, fun h1 h2 => ?_,
    fun h h1 h2 h3 => ?_⟩
  · unfold init_connector
    rw [h1]
    rfl
  · unfold init_connector
    rw [h1]
    rfl
  · unfold init_adoprovider
    rw [h1]
    rfl
  · unfold init_adoprovider
    rw [h1]
    rfl
  · unfold get_connector
    rw [if_pos h1, h2]
    rfl
  · unfold get_connector
    rw [if_pos h1, h2, h3]
    rfl
  · unfold get_adoprovider
    rw [if_pos h1, h2]
    rfl
  · unfold get_adoprovider
    rw [if_pos h1, h2, h3]
    rfl

/-- C9 witness: an invalid init connector yields `adodbapi`; a valid
per-call override (`odbc`, host present) is returned unchanged; an
invalid per-call provider falls back to the initialization value. -/
theorem C9_selector_fallback_witness :
    (valid_connectors true true).contains
      (pyLower ((cfgBogusConn "connector").getD "adodbapi")) = false ∧
    init_connector cfgBogusConn true true = "adodbapi" ∧
    get_connector cfgOdbcHost "adodbapi" true true = .ok "odbc" ∧
    get_adoprovider cfgBogusProv "SQLOLEDB" = .ok "SQLOLEDB" := by
  refine ⟨by decide, ?_, ?_, ?_⟩
  · exact (C9_selector_fallback cfgBogusConn cfgEmpty true true "adodbapi"
      "SQLOLEDB").1 (by decide)
  · exact (C9_selector_fallback cfgEmpty cfgOdbcHost true true
      "adodbapi" "SQLOLEDB").2.2.2.2.2.1 "h" (by decide) (by decide)
      (by decide)
  · exact (C9_selector_fallback cfgEmpty cfgBogusProv true true "adodbapi"
      "SQLOLEDB").2.2.2.2.2.2.1 (by decide) (by decide)

/-- C2 counterexample: with the password configured as the string
`host`, the cursor-miss error message (which always embeds the fixed
text `... for host: ` and the configured host) does contain the
configured password, so the claim's "never contains the password" fails
as stated. -/
theorem C2_cursor_miss_counterexample :
    cfgPwHost "password" = some "host" ∧
    get_cursor cfgPwHost [] none none =
      .error "Cannot find an opened connection for host: h" ∧
    ("host" : String).data <:+:
      ("Cannot find an opened connection for host: h" : String).data := by
  decide

/-- C2 (amended). Requesting a cursor for a key with no pool entry
always fails with `SQLConnectionError`, whose message is exactly the
fixed text followed by the raw configured host — so it contains the
configured host, and is built from neither the password nor the
connection key: any string (password, serialized key, …) that is not a
coincidental substring of that fixed-text-plus-host is absent from it. -/
theorem C2_cursor_miss (inst : Inst) (conns : List (String × Handle))
    (db_key db_name : Option String)
    (hmiss : dlookup conns (conn_key inst db_key db_name) = none) :
    get_cursor inst conns db_key db_name =
      .error ("Cannot find an opened connection for host: " ++
        pyStr (inst "host")) ∧
    (pyStr (inst "host")).data <:+:
      ("Cannot find an opened connection for host: " ++
        pyStr (inst "host")).data ∧
    (∀ w : String,
      ¬ w.data <:+: ("Cannot find an opened connection for host: " ++
        pyStr (inst "host")).data →
      ∀ m, get_cursor inst conns db_key db_name = .error m →
        ¬ w.data <:+: m.data) := by
  have hmain : get_cursor inst conns db_key db_name =
      .error ("Cannot find an opened connection for host: " ++
        pyStr (inst "host")) := by
    simp [get_cursor, hmiss]
  refine ⟨hmain, ?_, ?_⟩
  · exact ⟨("Cannot find an opened connection for host: " : String).data,
      [], by simp⟩
  · intro w hw m hm
    rw [hmain] at hm
    have : m = "Cannot find an opened connection for host: " ++
        pyStr (inst "host") := (Except.error.inj hm).symm
    rw [this]
    exact hw

/-- C2 witness: on the host/password configuration with an empty pool
the cursor request fails with the host-bearing message, the host occurs
in it, and the password `secret` (not a substring of it) does not. -/
theorem C2_cursor_miss_witness :
    dlookup [] (conn_key cfgHostPw none none) = none ∧
    get_cursor cfgHostPw [] none none =
      .error "Cannot find an opened connection for host: h" ∧
    ¬ ("secret" : String).data <:+:
      ("Cannot find an opened connection for host: h" : String).data := by
  have h := C2_cursor_miss cfgHostPw [] none none (by decide)
  refine ⟨by decide, ?_, ?_⟩
  · rw [h.1]
    decide
  · exact fun hx => (h.2.2 "secret" (by decide) _ h.1) (by
      simpa using hx)

/-- C5. The pool keeps at most one physical connection per key: the
empty pool satisfies the invariant and both `open_db_connections` (for
any driver outcome) and `close_db_connections` preserve it; moreover a
successful open whose key is already present attempts the stale
handle's close (the attempt appearing before any close-failure log,
which is swallowed — the call still succeeds) and replaces the entry
with the new handle. -/
theorem C5_pool_single_owner (inst : Inst)
    (selfConnector selfAdoprovider : String)
    (adodbapiAvail pyodbcAvail : Bool) (db_key db_name : Option String)
    (connect : String → Except String Handle)
    (conns : List (String × Handle)) (hnd : keys_nodup conns) :
    keys_nodup ([] : List (String × Handle)) ∧
    keys_nodup (open_db_connections inst selfConnector selfAdoprovider
      adodbapiAvail pyodbcAvail db_key db_name connect conns).2.1 ∧
    keys_nodup (close_db_connections inst db_key db_name conns).1 ∧
    (∀ old raw,
      dlookup conns (conn_key inst db_key db_name) = some old →
      open_attempt inst selfConnector selfAdoprovider adodbapiAvail
        pyodbcAvail db_key db_name connect = .ok raw →
      open_db_connections inst selfConnector selfAdoprovider adodbapiAvail
          pyodbcAvail db_key db_name connect conns =
        (.ok (), dinsert conns (conn_key inst db_key db_name) raw,
          [.reportOK (get_access_info inst db_key db_name).host
              (get_access_info inst db_key db_name).database,
            .closeAttempt old.id] ++
            (if old.closeOk then []
             else [.logInfo "Could not close adodbapi db connection"]))) := by
  refine ⟨by simp [keys_nodup, dkeys], ?_, ?_, ?_⟩
  · cases hatt : open_attempt inst selfConnector selfAdoprovider
        adodbapiAvail pyodbcAvail db_key db_name connect with
    | ok raw =>
      cases hl : dlookup conns (conn_key inst db_key db_name) with
      | none =>
        simp only [open_db_connections, hatt, hl]
        exact keys_nodup_dinsert _ _ _ hnd
      | some old =>
        simp only [open_db_connections, hatt, hl]
        exact keys_nodup_dinsert _ _ _ hnd
    | error e =>
      simp only [open_db_connections, hatt]
      exact hnd
  · cases hl : dlookup conns (conn_key inst db_key db_name) with
    | none =>
      simp only [close_db_connections, hl]
      exact hnd
    | some h =>
      by_cases hc : h.closeOk = true
      · simp only [close_db_connections, hl, hc, if_true]
        exact keys_nodup_dremove _ _ hnd
      · simp only [close_db_connections, hl, hc, if_false]
        simp only [Bool.false_eq_true, if_false]
        exact hnd
  · intro old raw hold hatt
    simp only [open_db_connections, hatt, hold]

/-- C5 witness: opening over an existing entry with a succeeding driver
closes the old handle, replaces the entry, and preserves the invariant. -/
theorem C5_pool_single_owner_witness :
    keys_nodup [(conn_key cfgHostPw none (some "master"), Handle.mk 1 true)] ∧
    open_db_connections cfgHostPw "adodbapi" "SQLOLEDB" true true none
        (some "master") (fun _ => .ok (Handle.mk 2 true))
        [(conn_key cfgHostPw none (some "master"), Handle.mk 1 true)] =
      (.ok (),
        [(conn_key cfgHostPw none (some "master"), Handle.mk 2 true)],
        [.reportOK (some "h") (some "master"), .closeAttempt 1]) := by
  constructor
  · decide
  · have h := (C5_pool_single_owner cfgHostPw "adodbapi" "SQLOLEDB" true
      true none (some "master") (fun _ => .ok (Handle.mk 2 true))
      [(conn_key cfgHostPw none (some "master"), Handle.mk 1 true)]
      (by decide)).2.2.2 (Handle.mk 1 true) (Handle.mk 2 true)
      (by decide) (by decide)
    rw [h]
    decide

/-- The raw (pre-scrub) failure message of `open_db_connections`:
`"Unable to connect to SQL Server for instance {host} - {database}:
{repr(e)}"`. -/
def rawMsg (inst : Inst) (db_key db_name : Option String) (e : String) :
    String :=
  "Unable to connect to SQL Server for instance " ++
    pyStr (get_access_info inst db_key db_name).host ++ " - " ++
    pyStr (get_access_info inst db_key db_name).database ++ ": " ++ e

/-- C10. When the attempt inside the `try` of `open_db_connections`
fails (in particular when the driver `connect` raises), the call returns
the pool exactly as it was — no entry added, removed or replaced — and
surfaces `SQLConnectionError` carrying the formatted, scrubbed message
(the driver exception text is embedded, not propagated), after a
CRITICAL report with the same message. -/
theorem C10_failed_connect_pool_untouched (inst : Inst)
    (selfConnector selfAdoprovider : String)
    (adodbapiAvail pyodbcAvail : Bool) (db_key db_name : Option String)
    (connect : String → Except String Handle)
    (conns : List (String × Handle)) (e : String)
    (hatt : open_attempt inst selfConnector selfAdoprovider adodbapiAvail
      pyodbcAvail db_key db_name connect = .error e) :
    open_db_connections inst selfConnector selfAdoprovider adodbapiAvail
        pyodbcAvail db_key db_name connect conns =
      (.error (failMessage inst (get_access_info inst db_key db_name) e),
        conns,
        [.reportCritical (get_access_info inst db_key db_name).host
          (get_access_info inst db_key db_name).database
          (failMessage inst (get_access_info inst db_key db_name) e)]) := by
  simp only [open_db_connections, hatt]

/-- C10 witness: a failing driver connect on a nonempty pool returns an
error and leaves the single pool entry in place. -/
theorem C10_failed_connect_pool_untouched_witness :
    open_attempt cfgHostPw "adodbapi" "SQLOLEDB" true true none
      (some "master") (fun _ => .error "boom") = .error "boom" ∧
    open_db_connections cfgHostPw "adodbapi" "SQLOLEDB" true true none
        (some "master") (fun _ => .error "boom")
        [(conn_key cfgHostPw none (some "master"), Handle.mk 1 true)] =
      (.error "Unable to connect to SQL Server for instance h - master: boom",
        [(conn_key cfgHostPw none (some "master"), Handle.mk 1 true)],
        [.reportCritical (some "h") (some "master")
          "Unable to connect to SQL Server for instance h - master: boom"]) := by
  constructor
  · decide
  · rw [C10_failed_connect_pool_untouched cfgHostPw "adodbapi" "SQLOLEDB"
      true true none (some "master") (fun _ => .error "boom")
      [(conn_key cfgHostPw none (some "master"), Handle.mk 1 true)] "boom"
      (by decide)]
    decide

/-- C1 counterexample: with the password `**` (a fragment of the mask),
the CRITICAL/raised message already carries mask characters, and
applying the scrub to that already-scrubbed message changes it — the
scrub is not idempotent for passwords that overlap the mask. -/
theorem C1_scrub_counterexample :
    cfgStarPw "password" = some "**" ∧
    (open_db_connections cfgStarPw "adodbapi" "SQLOLEDB" true true none
        (some "master") (fun _ => .error "boom **") []).1 =
      .error
        "Unable to connect to SQL Server for instance h - master: boom ******" ∧
    pyReplace
        "Unable to connect to SQL Server for instance h - master: boom ******"
        "**" mask ≠
      "Unable to connect to SQL Server for instance h - master: boom ******" := by
  decide

/-- C1 (amended). For every configured password that is nonempty and
contains no `*` (so it cannot overlap the mask), a failing open reports
CRITICAL with, and raises `SQLConnectionError` carrying, exactly the
raw message with every occurrence of the password replaced by the fixed
mask; the scrubbed message contains no occurrence of the password, and
the scrub is idempotent on it. For passwords containing `*` (e.g. a
fragment of the mask) idempotence fails, see the counterexample. -/
theorem C1_scrub_amended (inst : Inst)
    (selfConnector selfAdoprovider : String)
    (adodbapiAvail pyodbcAvail : Bool) (db_key db_name : Option String)
    (connect : String → Except String Handle)
    (conns : List (String × Handle)) (pw e : String)
    (hpw : inst "password" = some pw) (hne : pw ≠ "")
    (hstar : '*' ∉ pw.data)
    (hatt : open_attempt inst selfConnector selfAdoprovider adodbapiAvail
      pyodbcAvail db_key db_name connect = .error e) :
    open_db_connections inst selfConnector selfAdoprovider adodbapiAvail
        pyodbcAvail db_key db_name connect conns =
      (.error (pyReplace (rawMsg inst db_key db_name e) pw mask), conns,
        [.reportCritical (get_access_info inst db_key db_name).host
          (get_access_info inst db_key db_name).database
          (pyReplace (rawMsg inst db_key db_name e) pw mask)]) ∧
    ¬ pw.data <:+: (pyReplace (rawMsg inst db_key db_name e) pw mask).data ∧
    pyReplace (pyReplace (rawMsg inst db_key db_name e) pw mask) pw mask =
      pyReplace (rawMsg inst db_key db_name e) pw mask := by
  have hmsg : failMessage inst (get_access_info inst db_key db_name) e =
      pyReplace (rawMsg inst db_key db_name e) pw mask := by
    simp only [failMessage, hpw, rawMsg]
  refine ⟨?_, (pyReplace_scrub _ pw hne hstar).1,
    (pyReplace_scrub _ pw hne hstar).2⟩
  rw [← hmsg]
  simp only [open_db_connections, hatt]

/-- C1 witness: with password `secret` and a driver error embedding it,
the reported and raised message is the scrubbed text, the password no
longer occurs in it, and re-scrubbing changes nothing. -/
theorem C1_scrub_amended_witness :
    cfgHostPw "password" = some "secret" ∧
    (open_db_connections cfgHostPw "adodbapi" "SQLOLEDB" true true none
        (some "master") (fun _ => .error "login failed for secret")
        []).1 =
      .error (pyReplace
        (rawMsg cfgHostPw none (some "master") "login failed for secret")
        "secret" mask) ∧
    pyReplace
        (rawMsg cfgHostPw none (some "master") "login failed for secret")
        "secret" mask =
      "Unable to connect to SQL Server for instance h - master: login failed for ******" ∧
    ¬ ("secret" : String).data <:+:
      (pyReplace
        (rawMsg cfgHostPw none (some "master") "login failed for secret")
        "secret" mask).data ∧
    pyReplace
        (pyReplace
          (rawMsg cfgHostPw none (some "master") "login failed for secret")
          "secret" mask) "secret" mask =
      pyReplace
        (rawMsg cfgHostPw none (some "master") "login failed for secret")
        "secret" mask := by
  have h := C1_scrub_amended cfgHostPw "adodbapi" "SQLOLEDB" true true
    none (some "master") (fun _ => .error "login failed for secret") []
    "secret" "login failed for secret" (by decide) (by decide) (by decide)
    (by decide)
  refine ⟨by decide, ?_, by decide, h.2.1, h.2.2⟩
  rw [h.1]

/-- C6 counterexample: when the cached handle's `close()` fails, the
entry is not evicted and a following `get_cursor` for the same key
succeeds instead of raising — the claim's close-then-miss sequence
fails as stated. -/
theorem C6_close_counterexample :
    (close_db_connections cfgHostDb none none
        [(conn_key cfgHostDb none none, Handle.mk 5 false)]).1 =
      [(conn_key cfgHostDb none none, Handle.mk 5 false)] ∧
    get_cursor cfgHostDb
        (close_db_connections cfgHostDb none none
          [(conn_key cfgHostDb none none, Handle.mk 5 false)]).1 none none =
      .ok (Handle.mk 5 false) := by
  decide

/-- C6 (amended). After a successful open stored a handle whose
`close()` succeeds, `close_db_connections` evicts the entry and a
following `get_cursor` for that key raises `SQLConnectionError`; closing
is total (never raises): a second close, the key now absent, is a no-op
returning the pool unchanged — and in general a close with the key
absent is a no-op. When the handle's close fails the entry stays and the
cursor remains reachable (see the counterexample). -/
theorem C6_close_then_cursor_miss (inst : Inst)
    (db_key db_name : Option String) (conns : List (String × Handle))
    (h : Handle) (hnd : keys_nodup conns)
    (hfound : dlookup conns (conn_key inst db_key db_name) = some h)
    (hok : h.closeOk = true) :
    close_db_connections inst db_key db_name conns =
      (dremove conns (conn_key inst db_key db_name),
        [.closeAttempt h.id]) ∧
    get_cursor inst (close_db_connections inst db_key db_name conns).1
        db_key db_name =
      .error ("Cannot find an opened connection for host: " ++
        pyStr (inst "host")) ∧
    close_db_connections inst db_key db_name
        (close_db_connections inst db_key db_name conns).1 =
      ((close_db_connections inst db_key db_name conns).1, []) ∧
    (∀ conns₂, dlookup conns₂ (conn_key inst db_key db_name) = none →
      close_db_connections inst db_key db_name conns₂ = (conns₂, [])) := by
  have h1 : close_db_connections inst db_key db_name conns =
      (dremove conns (conn_key inst db_key db_name),
        [.closeAttempt h.id]) := by
    simp only [close_db_connections, hfound, hok, if_true]
  have hn : dlookup (dremove conns (conn_key inst db_key db_name))
      (conn_key inst db_key db_name) = none :=
    dlookup_dremove_self conns (conn_key inst db_key db_name) hnd
  refine ⟨h1, ?_, ?_, ?_⟩
  · rw [h1]
    simp only [get_cursor, hn]
  · rw [h1]
    simp only [close_db_connections, hn]
  · intro conns₂ hm
    simp only [close_db_connections, hm]

/-- C6 witness: on a singleton pool with a well-behaved handle, close
evicts, the cursor request then fails, and the second close is a no-op. -/
theorem C6_close_then_cursor_miss_witness :
    dlookup [(conn_key cfgFull (some "database") none, Handle.mk 1 true)]
      (conn_key cfgFull (some "database") none) = some (Handle.mk 1 true) ∧
    close_db_connections cfgFull (some "database") none
        [(conn_key cfgFull (some "database") none, Handle.mk 1 true)] =
      ([], [.closeAttempt 1]) ∧
    get_cursor cfgFull
        (close_db_connections cfgFull (some "database") none
          [(conn_key cfgFull (some "database") none, Handle.mk 1 true)]).1
        (some "database") none =
      .error "Cannot find an opened connection for host: h" ∧
    close_db_connections cfgFull (some "database") none
        (close_db_connections cfgFull (some "database") none
          [(conn_key cfgFull (some "database") none, Handle.mk 1 true)]).1 =
      ((close_db_connections cfgFull (some "database") none
          [(conn_key cfgFull (some "database") none, Handle.mk 1 true)]).1,
        []) := by
  have h := C6_close_then_cursor_miss cfgFull (some "database") none
    [(conn_key cfgFull (some "database") none, Handle.mk 1 true)]
    (Handle.mk 1 true) (by decide) (by decide) (by decide)
  refine ⟨by decide, ?_, ?_, h.2.2.1⟩
  · rw [h.1]
    decide
  · rw [h.2.1]
    decide

/-- C3 counterexample: after a failing catalog query the probe returns
`(false, context)` but the existence cache is *set* (to the empty set,
assigned inside the `try` before the query), so a second invocation
issues no catalog query at all — it answers `(false, context)` from the
cache even when the database meanwhile exists — contradicting the
claim's "cache left unset, subsequent invocation retries". -/
theorem C3_probe_counterexample :
    (check_db_exists cfgHostDb (.execError "boom")
        (DbState.mk [(conn_key cfgHostDb none (some "master"),
          Handle.mk 1 true)] none)).1 = .ok (false, "h - db1") ∧
    (check_db_exists cfgHostDb (.execError "boom")
        (DbState.mk [(conn_key cfgHostDb none (some "master"),
          Handle.mk 1 true)] none)).2.1.existing_databases = some [] ∧
    (some ([] : List String) ≠ (none : Option (List String))) ∧
    (check_db_exists cfgHostDb (.okRows ["db1"])
        (check_db_exists cfgHostDb (.execError "boom")
          (DbState.mk [(conn_key cfgHostDb none (some "master"),
            Handle.mk 1 true)] none)).2.1).2.2 = [] ∧
    (check_db_exists cfgHostDb (.okRows ["db1"])
        (check_db_exists cfgHostDb (.execError "boom")
          (DbState.mk [(conn_key cfgHostDb none (some "master"),
            Handle.mk 1 true)] none)).2.1).1 = .ok (false, "h - db1") := by
  decide

/-- C3 (amended). When the catalog query or the row iteration raises,
the probe returns `(false, "{host} - {database}")` without raising — but
the existence cache is left *set* to the row names consumed before the
failure (the empty set for an execute failure), because
`self.existing_databases = {}` runs inside the `try` before the query;
consequently every subsequent invocation answers from that cache and
issues no catalog query (no retry). -/
theorem C3_probe_failure_caches (inst : Inst) (st : DbState)
    (e : String) (consumed : List String) (h : Handle)
    (hcache : st.existing_databases = none)
    (hconn : dlookup st.conns (conn_key inst none (some "master")) =
      some h) :
    check_db_exists inst (.execError e) st =
      (.ok (false,
          pyStr (get_access_info inst (some "database") none).host ++
            " - " ++
            pyStr (get_access_info inst (some "database") none).database),
        { st with existing_databases := some [] },
        [.queryIssued DATABASE_EXISTS_QUERY, .logError e]) ∧
    check_db_exists inst (.iterError consumed e) st =
      (.ok (false,
          pyStr (get_access_info inst (some "database") none).host ++
            " - " ++
            pyStr (get_access_info inst (some "database") none).database),
        { st with existing_databases := some consumed },
        [.queryIssued DATABASE_EXISTS_QUERY, .logError e]) ∧
    (∀ (st₂ : DbState) (dbs : List String) (exec₂ : ProbeExec),
      st₂.existing_databases = some dbs →
      check_db_exists inst exec₂ st₂ =
        (.ok (dbMember
            (get_access_info inst (some "database") none).database dbs,
          pyStr (get_access_info inst (some "database") none).host ++
            " - " ++
            pyStr (get_access_info inst (some "database") none).database),
          st₂, [])) := by
  refine ⟨?_, ?_, ?_⟩
  · simp only [check_db_exists, hcache, hconn]
  · simp only [check_db_exists, hcache, hconn]
  · intro st₂ dbs exec₂ hdbs
    simp only [check_db_exists, hdbs]

/-- C3 witness: a failing execute returns `(false, "h - db1")` without
raising, leaves the cache set to the empty set, and a subsequent call
with a populated cache issues no query. -/
theorem C3_probe_failure_caches_witness :
    (DbState.mk [(conn_key cfgHostDb none (some "master"),
        Handle.mk 1 true)] none).existing_databases = none ∧
    check_db_exists cfgHostDb (.execError "boom")
        (DbState.mk [(conn_key cfgHostDb none (some "master"),
          Handle.mk 1 true)] none) =
      (.ok (false, "h - db1"),
        DbState.mk [(conn_key cfgHostDb none (some "master"),
          Handle.mk 1 true)] (some []),
        [.queryIssued DATABASE_EXISTS_QUERY, .logError "boom"]) ∧
    check_db_exists cfgHostDb (.iterError ["master"] "boom")
        (DbState.mk [(conn_key cfgHostDb none (some "master"),
          Handle.mk 1 true)] none) =
      (.ok (false, "h - db1"),
        DbState.mk [(conn_key cfgHostDb none (some "master"),
          Handle.mk 1 true)] (some ["master"]),
        [.queryIssued DATABASE_EXISTS_QUERY, .logError "boom"]) := by
  have h := C3_probe_failure_caches cfgHostDb
    (DbState.mk [(conn_key cfgHostDb none (some "master"),
      Handle.mk 1 true)] none) "boom" ["master"] (Handle.mk 1 true)
    (by decide) (by decide)
  refine ⟨by decide, ?_, ?_⟩
  · rw [h.1]
    decide
  · rw [h.2.1]
    decide
